import Mathlib

/-!
Shallow embedding of `xbmc/guilib/guiinfo/VideoGUIInfo.cpp` (class
`CVideoGUIInfo`), the video info provider of the GUI info resolution layer.
Machine arithmetic on times and bitrates is modelled over `ℚ`/`ℤ`; the two
`std::lrint`/`std::lrintf` calls of the source are modelled by round-to-nearest
with ties to even, the default IEEE rounding mode they use.  External
collaborators (localisation, settings store, data cache, path utilities,
locale-aware number formatting) are opaque data supplied through an `Env`
record, exactly as the source reads them.
-/

namespace VideoGUIInfo

/-- Round a rational to the nearest integer, ties to even: the behaviour of
`std::lrint` / `std::lrintf` under the default IEEE-754 rounding mode, as used
at `VideoGUIInfo.cpp:44` and `VideoGUIInfo.cpp:536/546`. -/
def lrint (q : ℚ) : ℤ :=
  if Int.fract q < 1/2 then ⌊q⌋
  else if 1/2 < Int.fract q then ⌊q⌋ + 1
  else if ⌊q⌋ % 2 = 0 then ⌊q⌋ else ⌊q⌋ + 1

theorem lrint_eq_floor_or_succ (q : ℚ) : lrint q = ⌊q⌋ ∨ lrint q = ⌊q⌋ + 1 := by
  unfold lrint
  split_ifs <;> simp

theorem le_lrint (n : ℤ) (q : ℚ) (h : (n : ℚ) ≤ q) : n ≤ lrint q := by
  have hf : n ≤ ⌊q⌋ := Int.le_floor.mpr h
  rcases lrint_eq_floor_or_succ q with h1 | h1 <;> omega

theorem lrint_le (q : ℚ) (n : ℤ) (h : q ≤ (n : ℚ)) : lrint q ≤ n := by
  unfold lrint
  have hfr := Int.floor_add_fract q
  split_ifs with h1 h2 h3
  · have : ⌊q⌋ ≤ ⌊(n : ℚ)⌋ := Int.floor_mono h
    simpa using this
  · have h4 : (⌊q⌋ : ℚ) < (n : ℚ) := by linarith
    have h5 : ⌊q⌋ < n := by exact_mod_cast h4
    omega
  · have : ⌊q⌋ ≤ ⌊(n : ℚ)⌋ := Int.floor_mono h
    simpa using this
  · have hhalf : Int.fract q = 1/2 := le_antisymm (not_lt.mp h2) (not_lt.mp h1)
    have h4 : (⌊q⌋ : ℚ) < (n : ℚ) := by
      rw [hhalf] at hfr
      linarith
    have h5 : ⌊q⌋ < n := by exact_mod_cast h4
    omega

theorem lrint_zero : lrint 0 = 0 := by
  unfold lrint
  norm_num

theorem lrint_intCast (n : ℤ) : lrint (n : ℚ) = n := by
  simp [lrint, Int.fract_intCast, Int.floor_intCast]

/-!
## Data model

The records below carry exactly the fields of the source objects that
`VideoGUIInfo.cpp` reads.  Times and ratings are rationals (C doubles/floats),
counters are integers (C ints).
-/

/-- Resume bookmark of a video tag: `CBookmark` as read at `VideoGUIInfo.cpp:42`. -/
structure CBookmark where
  timeInSeconds : ℚ
  totalTimeInSeconds : ℚ

/-- Modelled from the spec: `CBookmark::IsPartWay` lives outside this
translation unit.  The spec states that a result of 0 is produced "when
`total == 0` or bookmark is not partway" and that a bookmark is part-way
exactly when both the elapsed resume position and the total time are
positive ("is resumable" is `resume position > 0`). -/
def CBookmark.IsPartWay (b : CBookmark) : Bool :=
  decide (0 < b.totalTimeInSeconds) && decide (0 < b.timeInSeconds)

/-- One rating entry (`CRating`): a value and a vote count. -/
structure CRating where
  rating : ℚ
  votes : ℤ

/-- The slice of `CStreamDetails` this file reads for the stereoscopic rules. -/
structure CStreamDetails where
  stereoMode : String

/-- Media type constants from `media/MediaType.h`. -/
def MediaTypeMovie : String := "movie"

def MediaTypeEpisode : String := "episode"

def MediaTypeMusicVideo : String := "musicvideo"

def MediaTypeTvShow : String := "tvshow"

def MediaTypeVideoCollection : String := "set"

/-- The slice of `CVideoInfoTag` read by the operations under verification. -/
structure CVideoInfoTag where
  m_strTitle : String
  m_strPlot : String
  m_type : String
  m_iEpisode : ℤ
  m_iSeason : ℤ
  m_iUserRating : ℤ
  playCount : ℤ
  resumePoint : CBookmark
  ratings : String → CRating
  m_streamDetails : CStreamDetails

def CVideoInfoTag.GetRating (tag : CVideoInfoTag) (sourceId : String) : CRating :=
  tag.ratings sourceId

def CVideoInfoTag.GetPlayCount (tag : CVideoInfoTag) : ℤ :=
  tag.playCount

def CVideoInfoTag.GetResumePoint (tag : CVideoInfoTag) : CBookmark :=
  tag.resumePoint

/-- The slice of `CFileItem` read here: label, path, optional video tag, and
the value of `GetProperty("stereomode").asString()`. -/
structure CFileItem where
  label : String
  path : String
  videoInfoTag : Option CVideoInfoTag
  stereomodeProperty : String

/-- A `CGUIListItem*` handed to `GetInt`/`GetBool`: either a `CFileItem`
(`IsFileItem()` true) or some other list item. -/
inductive CGUIListItem where
  | fileItem (item : CFileItem)
  | nonFileItem

/-- The info codes of `GUIInfoLabels.h` whose handling in this file the claims
are about; every other code behaves like the fall-through branch. -/
inductive InfoCode where
  | PLAYER_TITLE
  | VIDEOPLAYER_TITLE
  | LISTITEM_TITLE
  | VIDEOPLAYER_RATING
  | LISTITEM_RATING
  | VIDEOPLAYER_USER_RATING
  | LISTITEM_USER_RATING
  | VIDEOPLAYER_VOTES
  | LISTITEM_VOTES
  | VIDEOPLAYER_EPISODE
  | LISTITEM_EPISODE
  | VIDEOPLAYER_PLOT
  | LISTITEM_PLOT
  | LISTITEM_PERCENT_PLAYED
  | VIDEOPLAYER_AUDIO_BITRATE
  | VIDEOPLAYER_VIDEO_BITRATE
  | VIDEOPLAYER_CONTENT
  | VIDEOPLAYER_IS_STEREOSCOPIC
  | LISTITEM_IS_STEREOSCOPIC
  | LISTITEM_IS_RESUMABLE
  | LISTITEM_IS_COLLECTION
  deriving DecidableEq

/-- A `CGUIInfo` query: the info code plus the auxiliary string parameter
returned by `GetData3()` (rating source / content name). -/
structure CGUIInfo where
  m_info : InfoCode
  data3 : String

/-- Live audio stream descriptor cached in the provider (`m_audioInfo`). -/
structure AudioStreamInfo where
  bitrate : ℤ

/-- Live video stream descriptor cached in the provider (`m_videoInfo`). -/
structure VideoStreamInfo where
  bitrate : ℤ

/-- Provider state: the cached playback stream descriptors. -/
structure CVideoGUIInfoState where
  m_audioInfo : AudioStreamInfo
  m_videoInfo : VideoStreamInfo

/-- External collaborators, read-only during a query: localisation table,
settings store, render data cache, path/format utilities. -/
structure Env where
  localize : ℕ → String
  showUnwatchedPlots : Bool
  dataCacheStereoMode : String
  getTitleFromPath : String → String
  normalizeStereoMode : String → String
  formatNumber : ℚ → String
  formatNumberInt : ℤ → String

/-- ASCII lower-casing of one character code, as `::tolower` does in the
default locale. -/
def asciiLower (n : ℕ) : ℕ :=
  if 65 ≤ n ∧ n ≤ 90 then n + 32 else n

/-- `StringUtils::EqualsNoCase`: character-wise case-insensitive equality. -/
def EqualsNoCase (a b : String) : Bool :=
  a.data.map (fun c => asciiLower c.toNat) == b.data.map (fun c => asciiLower c.toNat)

/-- `StringUtils::Format` with a plain integer conversion (`%d`/`%i`/`%li`). -/
def formatInt (n : ℤ) : String :=
  toString n

/-!
## Operations

`CVideoGUIInfo::GetLabel` is one C++ function with two consecutive switch
statements: the first runs only when the item carries a video tag and a `break`
in it falls through to the second.  It is split here into `getLabelTagSwitch`
(returning `none` on fall-through) and `getLabelPlaybackSwitch`.  All three
entry points thread the caller's output variable through explicitly, so that
the "return false without writing" frame behaviour of the source is visible.
-/

/-- `CVideoGUIInfo::GetPercentPlayed`, `VideoGUIInfo.cpp:40-47`. -/
def GetPercentPlayed (tag : CVideoInfoTag) : ℤ :=
  let bookmark := tag.GetResumePoint
  if bookmark.IsPartWay then
    lrint (bookmark.timeInSeconds / bookmark.totalTimeInSeconds * 100)
  else
    0

/-- First switch of `CVideoGUIInfo::GetLabel` (`VideoGUIInfo.cpp:89-457`),
reached only when the item has a video tag; `none` models a `break` that falls
through to the second switch. -/
def getLabelTagSwitch (env : Env) (tag : CVideoInfoTag) (item : CFileItem)
    (info : CGUIInfo) : Option (String × Bool) :=
  match info.m_info with
  | .PLAYER_TITLE | .VIDEOPLAYER_TITLE =>
    let v1 := tag.m_strTitle
    let v2 := if v1.isEmpty then item.label else v1
    let v3 := if v2.isEmpty then env.getTitleFromPath item.path else v2
    some (v3, true)
  | .LISTITEM_TITLE =>
    some (tag.m_strTitle, !tag.m_strTitle.isEmpty)
  | .VIDEOPLAYER_RATING | .LISTITEM_RATING =>
    let rating := (tag.GetRating info.data3).rating
    if 0 < rating then some (env.formatNumber rating, true) else none
  | .VIDEOPLAYER_USER_RATING | .LISTITEM_USER_RATING =>
    if 0 < tag.m_iUserRating then some (formatInt tag.m_iUserRating, true) else none
  | .VIDEOPLAYER_VOTES | .LISTITEM_VOTES =>
    some (env.formatNumberInt (tag.GetRating info.data3).votes, true)
  | .VIDEOPLAYER_EPISODE | .LISTITEM_EPISODE =>
    let p := if 0 < tag.m_iEpisode then (tag.m_iSeason, tag.m_iEpisode) else (-1, -1)
    if 0 ≤ p.2 then
      if p.1 = 0 then some ("S" ++ formatInt p.2, true)
      else some (formatInt p.2, true)
    else none
  | .VIDEOPLAYER_PLOT =>
    some (tag.m_strPlot, true)
  | .LISTITEM_PLOT =>
    if tag.m_type ≠ MediaTypeTvShow ∧ tag.m_type ≠ MediaTypeVideoCollection ∧
        tag.GetPlayCount = 0 ∧ env.showUnwatchedPlots = false then
      some (env.localize 20370, true)
    else
      some (tag.m_strPlot, true)
  | .LISTITEM_PERCENT_PLAYED =>
    some (formatInt (GetPercentPlayed tag), true)
  | _ => none

/-- Second switch of `CVideoGUIInfo::GetLabel` (`VideoGUIInfo.cpp:460-554`),
reached with or without a video tag; unhandled codes leave the output
unchanged and report `false`. -/
def getLabelPlaybackSwitch (state : CVideoGUIInfoState)
    (value0 : String) (info : CGUIInfo) : String × Bool :=
  match info.m_info with
  | .VIDEOPLAYER_AUDIO_BITRATE =>
    let iBitrate := state.m_audioInfo.bitrate
    if 0 < iBitrate then (formatInt (lrint ((iBitrate : ℚ) / 1000)), true)
    else (value0, false)
  | .VIDEOPLAYER_VIDEO_BITRATE =>
    let iBitrate := state.m_videoInfo.bitrate
    if 0 < iBitrate then (formatInt (lrint ((iBitrate : ℚ) / 1000)), true)
    else (value0, false)
  | _ => (value0, false)

/-- `CVideoGUIInfo::GetLabel` (`VideoGUIInfo.cpp:84-557`): resolve a string
query; the pair is the final content of the caller's `value` variable and the
returned found flag. -/
def GetLabel (env : Env) (state : CVideoGUIInfoState) (value0 : String)
    (item : CFileItem) (info : CGUIInfo) : String × Bool :=
  match item.videoInfoTag with
  | some tag =>
    match getLabelTagSwitch env tag item info with
    | some r => r
    | none => getLabelPlaybackSwitch state value0 info
  | none => getLabelPlaybackSwitch state value0 info

/-- `CVideoGUIInfo::GetInt` (`VideoGUIInfo.cpp:559-580`): the only handled
code is `LISTITEM_PERCENT_PLAYED`, and only for file items with a tag. -/
def GetInt (value0 : ℤ) (gitem : CGUIListItem) (info : CGUIInfo) : ℤ × Bool :=
  match gitem with
  | .nonFileItem => (value0, false)
  | .fileItem item =>
    match item.videoInfoTag with
    | some tag =>
      match info.m_info with
      | .LISTITEM_PERCENT_PLAYED => (GetPercentPlayed tag, true)
      | _ => (value0, false)
    | none => (value0, false)

/-- Stereo-mode resolution in the `LISTITEM_IS_STEREOSCOPIC` branch
(`VideoGUIInfo.cpp:664-666`): the item property wins; when it is empty and a
tag exists, the tag's stream stereo mode is normalised. -/
def resolveListItemStereoMode (env : Env) (item : CFileItem) : String :=
  let stereoMode := item.stereomodeProperty
  if stereoMode.isEmpty then
    match item.videoInfoTag with
    | some tag => env.normalizeStereoMode tag.m_streamDetails.stereoMode
    | none => stereoMode
  else
    stereoMode

/-- `CVideoGUIInfo::GetBool` (`VideoGUIInfo.cpp:582-674`): the pair is the
final content of the caller's `value` variable and the returned found flag.
The first switch runs only with a video tag; `VIDEOPLAYER_CONTENT` sits in the
second switch and returns the match result itself as the found flag
(`VideoGUIInfo.cpp:630`); `LISTITEM_IS_STEREOSCOPIC` writes `true` only when
the resolved mode is non-empty and not "mono", yet always reports found. -/
def GetBool (env : Env) (value0 : Bool) (gitem : CGUIListItem)
    (info : CGUIInfo) : Bool × Bool :=
  match gitem with
  | .nonFileItem => (value0, false)
  | .fileItem item =>
    let firstSwitch : Option (Bool × Bool) :=
      match item.videoInfoTag with
      | some tag =>
        match info.m_info with
        | .LISTITEM_IS_RESUMABLE =>
          some (decide (0 < tag.GetResumePoint.timeInSeconds), true)
        | .LISTITEM_IS_COLLECTION =>
          some (tag.m_type == MediaTypeVideoCollection, true)
        | _ => none
      | none => none
    match firstSwitch with
    | some r => r
    | none =>
      match info.m_info with
      | .VIDEOPLAYER_CONTENT =>
        let strContent : String :=
          match item.videoInfoTag with
          | some tag =>
            if tag.m_type = MediaTypeMovie then "movies"
            else if tag.m_type = MediaTypeEpisode then "episodes"
            else if tag.m_type = MediaTypeMusicVideo then "musicvideos"
            else "files"
          | none => "files"
        let matched := EqualsNoCase info.data3 strContent
        (matched, matched)
      | .VIDEOPLAYER_IS_STEREOSCOPIC =>
        (!env.dataCacheStereoMode.isEmpty, true)
      | .LISTITEM_IS_STEREOSCOPIC =>
        let stereoMode := resolveListItemStereoMode env item
        if ¬stereoMode.isEmpty ∧ stereoMode ≠ "mono" then (true, true)
        else (value0, true)
      | _ => (value0, false)

/-!
## Concrete sample data

Field order of `CVideoInfoTag` values: title, plot, media type, episode,
season, user rating, play count, resume point, ratings table, stream details.
-/

/-- A movie tag resumed half-way: elapsed 50 of 100 seconds. -/
def halfwayTag : CVideoInfoTag :=
  ⟨"Movie Title", "the plot", MediaTypeMovie, 0, 0, 0, 0, ⟨50, 100⟩,
    fun _ => ⟨0, 0⟩, ⟨""⟩⟩

/-- A movie tag with all ratings, votes and the user rating at zero. -/
def zeroRatingsTag : CVideoInfoTag :=
  ⟨"Some Movie", "plot text", MediaTypeMovie, 0, 0, 0, 0, ⟨0, 0⟩,
    fun _ => ⟨0, 0⟩, ⟨""⟩⟩

/-- A file item wrapping `zeroRatingsTag`. -/
def zeroRatingsItem : CFileItem :=
  ⟨"item label", "/videos/a.mkv", some zeroRatingsTag, ""⟩

/-- An episode tag with episode 5 in season 0. -/
def episodeTag : CVideoInfoTag :=
  ⟨"Pilot", "plot", MediaTypeEpisode, 5, 0, 0, 0, ⟨0, 0⟩, fun _ => ⟨0, 0⟩, ⟨""⟩⟩

/-- A file item wrapping `episodeTag`. -/
def episodeItem : CFileItem :=
  ⟨"ep label", "/tv/e.mkv", some episodeTag, ""⟩

/-- An episode tag with episode 5 in season 2. -/
def episodeSeason2Tag : CVideoInfoTag :=
  ⟨"Pilot", "plot", MediaTypeEpisode, 5, 2, 0, 0, ⟨0, 0⟩, fun _ => ⟨0, 0⟩, ⟨""⟩⟩

/-- A file item wrapping `episodeSeason2Tag`. -/
def episodeSeason2Item : CFileItem :=
  ⟨"ep label", "/tv/e.mkv", some episodeSeason2Tag, ""⟩

/-- An episode tag with episode number 0. -/
def noEpisodeTag : CVideoInfoTag :=
  ⟨"Pilot", "plot", MediaTypeEpisode, 0, 2, 0, 0, ⟨0, 0⟩, fun _ => ⟨0, 0⟩, ⟨""⟩⟩

/-- A file item wrapping `noEpisodeTag`. -/
def noEpisodeItem : CFileItem :=
  ⟨"ep label", "/tv/e.mkv", some noEpisodeTag, ""⟩

/-- Environment used for concrete instances; distinct outputs per collaborator. -/
def baseEnv : Env :=
  ⟨fun _ => "hidden plot placeholder", false, "", fun _ => "path title",
    fun s => s, fun _ => "formatted", fun _ => "formatted"⟩

/-- Environment whose render data cache reports stereo mode "mono". -/
def monoEnv : Env :=
  ⟨fun _ => "hidden plot placeholder", false, "mono", fun _ => "path title",
    fun s => s, fun _ => "formatted", fun _ => "formatted"⟩

/-- Provider state with no live bitrates. -/
def baseState : CVideoGUIInfoState := ⟨⟨0⟩, ⟨0⟩⟩

/-- Provider state with 128000 b/s on both live streams. -/
def kbpsState : CVideoGUIInfoState := ⟨⟨128000⟩, ⟨128000⟩⟩

/-- A tag-less file item whose "stereomode" property is "top-bottom". -/
def topBottomItem : CFileItem :=
  ⟨"label", "/videos/t.mkv", none, "top-bottom"⟩

/-- A tag-less file item whose "stereomode" property is "mono". -/
def monoPropItem : CFileItem :=
  ⟨"label", "/videos/m.mkv", none, "mono"⟩

/-- A file item wrapping `halfwayTag`. -/
def halfwayItem : CFileItem :=
  ⟨"item label", "/videos/h.mkv", some halfwayTag, ""⟩

/-!
## Claims
-/

/-- Claim C1: for every video tag whose resume bookmark satisfies
`0 ≤ elapsed ≤ total`, `GetPercentPlayed` returns `round(elapsed/total*100)`,
which lies in `[0, 100]`; and whenever `total = 0` or the bookmark is not
part-way it returns 0. -/
theorem getPercentPlayed_spec (tag : CVideoInfoTag)
    (h0 : 0 ≤ tag.resumePoint.timeInSeconds)
    (h1 : tag.resumePoint.timeInSeconds ≤ tag.resumePoint.totalTimeInSeconds) :
    GetPercentPlayed tag
        = lrint (tag.resumePoint.timeInSeconds / tag.resumePoint.totalTimeInSeconds * 100)
      ∧ 0 ≤ GetPercentPlayed tag ∧ GetPercentPlayed tag ≤ 100
      ∧ ((tag.resumePoint.totalTimeInSeconds = 0 ∨ tag.resumePoint.IsPartWay = false) →
          GetPercentPlayed tag = 0) := by
  have ht0 : 0 ≤ tag.resumePoint.totalTimeInSeconds := h0.trans h1
  have hq0 : 0 ≤ tag.resumePoint.timeInSeconds / tag.resumePoint.totalTimeInSeconds * 100 :=
    mul_nonneg (div_nonneg h0 ht0) (by norm_num)
  have hq100 : tag.resumePoint.timeInSeconds / tag.resumePoint.totalTimeInSeconds * 100 ≤ 100 := by
    rcases eq_or_lt_of_le ht0 with ht | ht
    · rw [← ht, div_zero, zero_mul]
      norm_num
    · have hd : tag.resumePoint.timeInSeconds / tag.resumePoint.totalTimeInSeconds ≤ 1 :=
        (div_le_one ht).mpr h1
      calc tag.resumePoint.timeInSeconds / tag.resumePoint.totalTimeInSeconds * 100
          ≤ 1 * 100 := by
            exact mul_le_mul_of_nonneg_right hd (by norm_num)
        _ = 100 := by norm_num
  by_cases hp : tag.resumePoint.IsPartWay = true
  · have hparts : 0 < tag.resumePoint.totalTimeInSeconds ∧ 0 < tag.resumePoint.timeInSeconds := by
      simpa [CBookmark.IsPartWay] using hp
    have hg : GetPercentPlayed tag
        = lrint (tag.resumePoint.timeInSeconds / tag.resumePoint.totalTimeInSeconds * 100) := by
      unfold GetPercentPlayed
      simp [CVideoInfoTag.GetResumePoint, hp]
    refine ⟨hg, ?_, ?_, ?_⟩
    · rw [hg]
      exact le_lrint 0 _ (by exact_mod_cast hq0)
    · rw [hg]
      exact lrint_le _ 100 (by exact_mod_cast hq100)
    · rintro (ht | hfalse)
      · rw [ht] at hparts
        exact absurd hparts.1 (lt_irrefl 0)
      · rw [hp] at hfalse
        exact absurd hfalse (by simp)
  · have hb : tag.resumePoint.IsPartWay = false := by
      simpa using hp
    have hnot : ¬(0 < tag.resumePoint.totalTimeInSeconds) ∨
        ¬(0 < tag.resumePoint.timeInSeconds) := by
      by_contra hcon
      push_neg at hcon
      have htrue : tag.resumePoint.IsPartWay = true := by
        simp [CBookmark.IsPartWay]
        exact ⟨hcon.1, hcon.2⟩
      rw [htrue] at hb
      exact absurd hb (by simp)
    have he0 : tag.resumePoint.timeInSeconds = 0 := by
      rcases hnot with h | h
      · exact le_antisymm (h1.trans (not_lt.mp h)) h0
      · exact le_antisymm (not_lt.mp h) h0
    have hg : GetPercentPlayed tag = 0 := by
      unfold GetPercentPlayed
      simp [CVideoInfoTag.GetResumePoint, hb]
    have hlr : lrint (tag.resumePoint.timeInSeconds / tag.resumePoint.totalTimeInSeconds * 100)
        = 0 := by
      rw [he0, zero_div, zero_mul, lrint_zero]
    exact ⟨hg.trans hlr.symm, by rw [hg], by rw [hg]; norm_num, fun _ => hg⟩

/-- Claim C1 witness: the bookmark of `halfwayTag` (elapsed 50, total 100)
satisfies the hypotheses, and the percent played evaluates to 50. -/
theorem getPercentPlayed_spec_witness :
    (0 : ℚ) ≤ halfwayTag.resumePoint.timeInSeconds
      ∧ halfwayTag.resumePoint.timeInSeconds ≤ halfwayTag.resumePoint.totalTimeInSeconds
      ∧ GetPercentPlayed halfwayTag = 50 := by
  refine ⟨by decide, by decide, ?_⟩
  have h := getPercentPlayed_spec halfwayTag (by decide) (by decide)
  rw [h.1]
  have hc : halfwayTag.resumePoint.timeInSeconds
      / halfwayTag.resumePoint.totalTimeInSeconds * 100 = ((50 : ℤ) : ℚ) := by
    norm_num [halfwayTag]
  rw [hc, lrint_intCast]

/-- Claim C2 counterexample: on an item whose rating entry has zero votes, the
VIDEOPLAYER_VOTES query still reports found=true, refuting "votes return
found=false whenever the underlying value is ≤ 0". -/
theorem votes_zero_found_counterexample :
    (zeroRatingsTag.GetRating "").votes ≤ 0
      ∧ (GetLabel baseEnv baseState "" zeroRatingsItem
          ⟨InfoCode.VIDEOPLAYER_VOTES, ""⟩).2 = true :=
  ⟨by decide, rfl⟩

/-- Claim C2 (amended): for every item with metadata, the rating and
user-rating queries (both VIDEOPLAYER_* and LISTITEM_* codes) report
found=false whenever the underlying value is ≤ 0; the votes queries instead
always report found=true, returning the formatted vote count even when it is
≤ 0. -/
theorem rating_votes_userRating_found (env : Env) (state : CVideoGUIInfoState)
    (value0 : String) (item : CFileItem) (tag : CVideoInfoTag)
    (ht : item.videoInfoTag = some tag) (d3 : String) :
    (∀ c, (c = InfoCode.VIDEOPLAYER_RATING ∨ c = InfoCode.LISTITEM_RATING) →
        (tag.GetRating d3).rating ≤ 0 →
        (GetLabel env state value0 item ⟨c, d3⟩).2 = false)
      ∧ (∀ c, (c = InfoCode.VIDEOPLAYER_USER_RATING ∨ c = InfoCode.LISTITEM_USER_RATING) →
          tag.m_iUserRating ≤ 0 →
          (GetLabel env state value0 item ⟨c, d3⟩).2 = false)
      ∧ (∀ c, (c = InfoCode.VIDEOPLAYER_VOTES ∨ c = InfoCode.LISTITEM_VOTES) →
          (GetLabel env state value0 item ⟨c, d3⟩)
            = (env.formatNumberInt (tag.GetRating d3).votes, true)) := by
  refine ⟨?_, ?_, ?_⟩
  · rintro c (rfl | rfl) hr <;>
      simp [GetLabel, getLabelTagSwitch, getLabelPlaybackSwitch, ht, not_lt.mpr hr]
  · rintro c (rfl | rfl) hr <;>
      simp [GetLabel, getLabelTagSwitch, getLabelPlaybackSwitch, ht, not_lt.mpr hr]
  · rintro c (rfl | rfl) <;>
      simp [GetLabel, getLabelTagSwitch, ht]

/-- Claim C2 witness: on `zeroRatingsItem` (rating 0, user rating 0, votes 0)
the VIDEOPLAYER_RATING query defers with found=false. -/
theorem rating_votes_userRating_found_witness :
    (GetLabel baseEnv baseState "" zeroRatingsItem
        ⟨InfoCode.VIDEOPLAYER_RATING, ""⟩).2 = false :=
  (rating_votes_userRating_found baseEnv baseState "" zeroRatingsItem zeroRatingsTag
      rfl "").1 InfoCode.VIDEOPLAYER_RATING (Or.inl rfl) (by decide)

/-- Claim C3 counterexample: with the render data cache reporting stereo mode
"mono", the VIDEOPLAYER_IS_STEREOSCOPIC query resolves the value true, so the
"mono means not stereoscopic" rule does not hold for that code. -/
theorem videoplayer_stereoscopic_mono_counterexample :
    monoEnv.dataCacheStereoMode = "mono"
      ∧ GetBool monoEnv false (CGUIListItem.fileItem zeroRatingsItem)
          ⟨InfoCode.VIDEOPLAYER_IS_STEREOSCOPIC, ""⟩ = (true, true) :=
  ⟨rfl, rfl⟩

/-- Claim C3 (amended): LISTITEM_IS_STEREOSCOPIC (with the output initialised
to false) resolves true exactly when the resolved stereo mode is non-empty and
differs from "mono", and always reports found; VIDEOPLAYER_IS_STEREOSCOPIC
instead resolves true exactly when the data-cache stereo mode is non-empty,
"mono" included. -/
theorem is_stereoscopic_resolution (env : Env) (item : CFileItem) (d3 : String) :
    GetBool env false (CGUIListItem.fileItem item)
        ⟨InfoCode.VIDEOPLAYER_IS_STEREOSCOPIC, d3⟩
        = (!env.dataCacheStereoMode.isEmpty, true)
      ∧ ((GetBool env false (CGUIListItem.fileItem item)
            ⟨InfoCode.LISTITEM_IS_STEREOSCOPIC, d3⟩).1 = true ↔
          ¬(resolveListItemStereoMode env item).isEmpty
            ∧ resolveListItemStereoMode env item ≠ "mono")
      ∧ (GetBool env false (CGUIListItem.fileItem item)
          ⟨InfoCode.LISTITEM_IS_STEREOSCOPIC, d3⟩).2 = true := by
  refine ⟨?_, ?_, ?_⟩
  · cases hv : item.videoInfoTag <;> simp [GetBool, hv]
  · cases hv : item.videoInfoTag <;>
      · simp only [GetBool, hv]
        split_ifs with h <;> simp [h]
        intro hfe
        rcases not_and_or.mp h with h1 | h1
        · exact absurd (not_not.mp h1) (by simp [hfe])
        · exact not_not.mp h1
  · cases hv : item.videoInfoTag <;>
      · simp only [GetBool, hv]
        split_ifs with h <;> simp

/-- Claim C3 witness: the amended rule applied to a "top-bottom" item (resolves
true) and to a "mono" item (resolves false). -/
theorem is_stereoscopic_resolution_witness :
    (GetBool baseEnv false (CGUIListItem.fileItem topBottomItem)
        ⟨InfoCode.LISTITEM_IS_STEREOSCOPIC, ""⟩).1 = true
      ∧ (GetBool baseEnv false (CGUIListItem.fileItem monoPropItem)
          ⟨InfoCode.LISTITEM_IS_STEREOSCOPIC, ""⟩).1 = false := by
  constructor
  · exact (is_stereoscopic_resolution baseEnv topBottomItem "").2.1.mpr (by decide)
  · refine Bool.eq_false_iff.mpr (fun hcon => ?_)
    have h := (is_stereoscopic_resolution baseEnv monoPropItem "").2.1.mp hcon
    exact h.2 (by decide)

/-- Claim C4: VIDEOPLAYER_CONTENT maps the item's media type to a content name
(movie to "movies", episode to "episodes", musicvideo to "musicvideos",
otherwise "files"), compares it case-insensitively with the query's content
string, and returns the match result itself as the found flag: an episode item
yields (true, true) for "EPISODES" and (false, false) for "movies". -/
theorem videoplayer_content_match (env : Env) (value0 : Bool) (item : CFileItem)
    (tag : CVideoInfoTag) (ht : item.videoInfoTag = some tag)
    (hty : tag.m_type = MediaTypeEpisode) :
    GetBool env value0 (CGUIListItem.fileItem item)
        ⟨InfoCode.VIDEOPLAYER_CONTENT, "EPISODES"⟩ = (true, true)
      ∧ GetBool env value0 (CGUIListItem.fileItem item)
          ⟨InfoCode.VIDEOPLAYER_CONTENT, "movies"⟩ = (false, false)
      ∧ ∀ d3 : String,
          GetBool env value0 (CGUIListItem.fileItem item)
              ⟨InfoCode.VIDEOPLAYER_CONTENT, d3⟩
            = (EqualsNoCase d3 "episodes", EqualsNoCase d3 "episodes") := by
  have hgen : ∀ d3 : String,
      GetBool env value0 (CGUIListItem.fileItem item) ⟨InfoCode.VIDEOPLAYER_CONTENT, d3⟩
        = (EqualsNoCase d3 "episodes", EqualsNoCase d3 "episodes") := by
    intro d3
    have hmv : MediaTypeEpisode ≠ MediaTypeMovie := by decide
    simp [GetBool, ht, hty, hmv]
  refine ⟨?_, ?_, hgen⟩
  · rw [hgen "EPISODES"]
    decide
  · rw [hgen "movies"]
    decide

/-- Claim C4 witness: the content-match rule applied to `episodeItem`. -/
theorem videoplayer_content_match_witness :
    GetBool baseEnv false (CGUIListItem.fileItem episodeItem)
        ⟨InfoCode.VIDEOPLAYER_CONTENT, "EPISODES"⟩ = (true, true) :=
  (videoplayer_content_match baseEnv false episodeItem episodeTag rfl rfl).1

/-- Claim C5: LISTITEM_PLOT always reports found=true; when the media type is
neither a TV show nor a video collection, the play count is 0 and the
show-unwatched-plots setting is off, the returned string is the fixed
localised spoiler-guard placeholder (string id 20370), not the stored plot;
in every other case the stored plot text itself is returned. -/
theorem listitem_plot_spoiler_guard (env : Env) (state : CVideoGUIInfoState)
    (value0 : String) (item : CFileItem) (tag : CVideoInfoTag)
    (ht : item.videoInfoTag = some tag) (d3 : String) :
    (GetLabel env state value0 item ⟨InfoCode.LISTITEM_PLOT, d3⟩).2 = true
      ∧ (tag.m_type ≠ MediaTypeTvShow → tag.m_type ≠ MediaTypeVideoCollection →
          tag.GetPlayCount = 0 → env.showUnwatchedPlots = false →
          (GetLabel env state value0 item ⟨InfoCode.LISTITEM_PLOT, d3⟩).1
              = env.localize 20370
            ∧ (env.localize 20370 ≠ tag.m_strPlot →
                (GetLabel env state value0 item ⟨InfoCode.LISTITEM_PLOT, d3⟩).1
                  ≠ tag.m_strPlot))
      ∧ (¬(tag.m_type ≠ MediaTypeTvShow ∧ tag.m_type ≠ MediaTypeVideoCollection ∧
            tag.GetPlayCount = 0 ∧ env.showUnwatchedPlots = false) →
          (GetLabel env state value0 item ⟨InfoCode.LISTITEM_PLOT, d3⟩).1
            = tag.m_strPlot) := by
  refine ⟨?_, ?_, ?_⟩
  · simp only [GetLabel, getLabelTagSwitch, ht]
    split_ifs <;> rfl
  · intro h1 h2 h3 h4
    have hcond : tag.m_type ≠ MediaTypeTvShow ∧ tag.m_type ≠ MediaTypeVideoCollection ∧
        tag.GetPlayCount = 0 ∧ env.showUnwatchedPlots = false := ⟨h1, h2, h3, h4⟩
    have hval : (GetLabel env state value0 item ⟨InfoCode.LISTITEM_PLOT, d3⟩).1
        = env.localize 20370 := by
      simp only [GetLabel, getLabelTagSwitch, ht]
      rw [if_pos hcond]
    exact ⟨hval, fun hne => by rw [hval]; exact hne⟩
  · intro hcond
    simp only [GetLabel, getLabelTagSwitch, ht]
    rw [if_neg hcond]

/-- Claim C5 witness: on `zeroRatingsItem` (a movie with play count 0) under
`baseEnv` (show-unwatched-plots off), the plot query returns the placeholder
with found=true. -/
theorem listitem_plot_spoiler_guard_witness :
    (GetLabel baseEnv baseState "" zeroRatingsItem ⟨InfoCode.LISTITEM_PLOT, ""⟩).2 = true
      ∧ (GetLabel baseEnv baseState "" zeroRatingsItem ⟨InfoCode.LISTITEM_PLOT, ""⟩).1
        = "hidden plot placeholder" := by
  have h := listitem_plot_spoiler_guard baseEnv baseState "" zeroRatingsItem
    zeroRatingsTag rfl ""
  exact ⟨h.1, (h.2.1 (by decide) (by decide) (by decide) rfl).1⟩

/-- Claim C6: PLAYER_TITLE/VIDEOPLAYER_TITLE on an item with metadata returns
the first non-empty of metadata title, item label and path-derived title,
always reporting found=true. -/
theorem title_fallback_order (env : Env) (state : CVideoGUIInfoState)
    (value0 : String) (item : CFileItem) (tag : CVideoInfoTag)
    (ht : item.videoInfoTag = some tag) (d3 : String) (c : InfoCode)
    (hc : c = InfoCode.PLAYER_TITLE ∨ c = InfoCode.VIDEOPLAYER_TITLE) :
    (tag.m_strTitle.isEmpty = false →
        GetLabel env state value0 item ⟨c, d3⟩ = (tag.m_strTitle, true))
      ∧ (tag.m_strTitle.isEmpty = true → item.label.isEmpty = false →
          GetLabel env state value0 item ⟨c, d3⟩ = (item.label, true))
      ∧ (tag.m_strTitle.isEmpty = true → item.label.isEmpty = true →
          GetLabel env state value0 item ⟨c, d3⟩
            = (env.getTitleFromPath item.path, true)) := by
  rcases hc with rfl | rfl <;>
    exact ⟨fun h1 => by simp [GetLabel, getLabelTagSwitch, ht, h1],
      fun h1 h2 => by simp [GetLabel, getLabelTagSwitch, ht, h1, h2],
      fun h1 h2 => by simp [GetLabel, getLabelTagSwitch, ht, h1, h2]⟩

/-- Claim C6 witness: on `zeroRatingsItem`, whose metadata title is non-empty,
the title query returns that title with found=true. -/
theorem title_fallback_order_witness :
    GetLabel baseEnv baseState "" zeroRatingsItem ⟨InfoCode.VIDEOPLAYER_TITLE, ""⟩
      = ("Some Movie", true) :=
  (title_fallback_order baseEnv baseState "" zeroRatingsItem zeroRatingsTag rfl ""
      InfoCode.VIDEOPLAYER_TITLE (Or.inr rfl)).1 (by decide)

/-- Claim C7: the episode label rule for VIDEOPLAYER_EPISODE and
LISTITEM_EPISODE: episode 5 in season 0 renders "S5", episode 5 in season 2
renders "5", and an episode number ≤ 0 reports found=false. -/
theorem episode_label_rule (env : Env) (state : CVideoGUIInfoState)
    (value0 : String) (item : CFileItem) (tag : CVideoInfoTag)
    (ht : item.videoInfoTag = some tag) (d3 : String) (c : InfoCode)
    (hc : c = InfoCode.VIDEOPLAYER_EPISODE ∨ c = InfoCode.LISTITEM_EPISODE) :
    (tag.m_iEpisode = 5 → tag.m_iSeason = 0 →
        GetLabel env state value0 item ⟨c, d3⟩ = ("S5", true))
      ∧ (tag.m_iEpisode = 5 → tag.m_iSeason = 2 →
          GetLabel env state value0 item ⟨c, d3⟩ = ("5", true))
      ∧ (tag.m_iEpisode ≤ 0 →
          (GetLabel env state value0 item ⟨c, d3⟩).2 = false) := by
  rcases hc with rfl | rfl <;>
    · refine ⟨fun he hs => ?_, fun he hs => ?_, fun he => ?_⟩
      · simp [GetLabel, getLabelTagSwitch, ht, he, hs]
        decide
      · simp [GetLabel, getLabelTagSwitch, ht, he, hs]
        decide
      · simp [GetLabel, getLabelTagSwitch, getLabelPlaybackSwitch, ht, not_lt.mpr he]

/-- Claim C7 witness: the three episode/season configurations evaluated on
concrete items. -/
theorem episode_label_rule_witness :
    GetLabel baseEnv baseState "" episodeItem ⟨InfoCode.VIDEOPLAYER_EPISODE, ""⟩
        = ("S5", true)
      ∧ GetLabel baseEnv baseState "" episodeSeason2Item
          ⟨InfoCode.VIDEOPLAYER_EPISODE, ""⟩ = ("5", true)
      ∧ (GetLabel baseEnv baseState "" noEpisodeItem
          ⟨InfoCode.VIDEOPLAYER_EPISODE, ""⟩).2 = false := by
  refine ⟨?_, ?_, ?_⟩
  · exact (episode_label_rule baseEnv baseState "" episodeItem episodeTag rfl ""
      InfoCode.VIDEOPLAYER_EPISODE (Or.inl rfl)).1 rfl rfl
  · exact (episode_label_rule baseEnv baseState "" episodeSeason2Item episodeSeason2Tag
      rfl "" InfoCode.VIDEOPLAYER_EPISODE (Or.inl rfl)).2.1 rfl rfl
  · exact (episode_label_rule baseEnv baseState "" noEpisodeItem noEpisodeTag rfl ""
      InfoCode.VIDEOPLAYER_EPISODE (Or.inl rfl)).2.2 (by decide)

/-- Claim C8: the live bitrate queries: a positive cached bitrate is rendered
as round-to-nearest of bitrate/1000 (so 128000 renders "128"); a bitrate ≤ 0
reports found=false and leaves the output untouched. -/
theorem bitrate_kbps_rule (env : Env) (state : CVideoGUIInfoState)
    (value0 : String) (item : CFileItem) (d3 : String) :
    (0 < state.m_audioInfo.bitrate →
        GetLabel env state value0 item ⟨InfoCode.VIDEOPLAYER_AUDIO_BITRATE, d3⟩
          = (formatInt (lrint ((state.m_audioInfo.bitrate : ℚ) / 1000)), true))
      ∧ (state.m_audioInfo.bitrate ≤ 0 →
          GetLabel env state value0 item ⟨InfoCode.VIDEOPLAYER_AUDIO_BITRATE, d3⟩
            = (value0, false))
      ∧ (0 < state.m_videoInfo.bitrate →
          GetLabel env state value0 item ⟨InfoCode.VIDEOPLAYER_VIDEO_BITRATE, d3⟩
            = (formatInt (lrint ((state.m_videoInfo.bitrate : ℚ) / 1000)), true))
      ∧ (state.m_videoInfo.bitrate ≤ 0 →
          GetLabel env state value0 item ⟨InfoCode.VIDEOPLAYER_VIDEO_BITRATE, d3⟩
            = (value0, false))
      ∧ (state.m_audioInfo.bitrate = 128000 →
          (GetLabel env state value0 item ⟨InfoCode.VIDEOPLAYER_AUDIO_BITRATE, d3⟩).1
            = "128")
      ∧ (state.m_videoInfo.bitrate = 128000 →
          (GetLabel env state value0 item ⟨InfoCode.VIDEOPLAYER_VIDEO_BITRATE, d3⟩).1
            = "128") := by
  have haud : ∀ h : 0 < state.m_audioInfo.bitrate,
      GetLabel env state value0 item ⟨InfoCode.VIDEOPLAYER_AUDIO_BITRATE, d3⟩
        = (formatInt (lrint ((state.m_audioInfo.bitrate : ℚ) / 1000)), true) := by
    intro h
    cases hv : item.videoInfoTag <;>
      simp [GetLabel, getLabelTagSwitch, getLabelPlaybackSwitch, hv, h]
  have hvid : ∀ h : 0 < state.m_videoInfo.bitrate,
      GetLabel env state value0 item ⟨InfoCode.VIDEOPLAYER_VIDEO_BITRATE, d3⟩
        = (formatInt (lrint ((state.m_videoInfo.bitrate : ℚ) / 1000)), true) := by
    intro h
    cases hv : item.videoInfoTag <;>
      simp [GetLabel, getLabelTagSwitch, getLabelPlaybackSwitch, hv, h]
  refine ⟨haud, ?_, hvid, ?_, ?_, ?_⟩
  · intro h
    cases hv : item.videoInfoTag <;>
      simp [GetLabel, getLabelTagSwitch, getLabelPlaybackSwitch, hv, not_lt.mpr h]
  · intro h
    cases hv : item.videoInfoTag <;>
      simp [GetLabel, getLabelTagSwitch, getLabelPlaybackSwitch, hv, not_lt.mpr h]
  · intro h128
    rw [haud (by rw [h128]; decide), h128]
    have hc : ((128000 : ℤ) : ℚ) / 1000 = ((128 : ℤ) : ℚ) := by norm_num
    rw [hc, lrint_intCast]
    decide
  · intro h128
    rw [hvid (by rw [h128]; decide), h128]
    have hc : ((128000 : ℤ) : ℚ) / 1000 = ((128 : ℤ) : ℚ) := by norm_num
    rw [hc, lrint_intCast]
    decide

/-- Claim C8 witness: with both live bitrates cached at 128000 b/s, the audio
bitrate query renders "128", and with no positive bitrate it defers. -/
theorem bitrate_kbps_rule_witness :
    (GetLabel baseEnv kbpsState "" zeroRatingsItem
        ⟨InfoCode.VIDEOPLAYER_AUDIO_BITRATE, ""⟩).1 = "128"
      ∧ GetLabel baseEnv baseState "x" zeroRatingsItem
          ⟨InfoCode.VIDEOPLAYER_AUDIO_BITRATE, ""⟩ = ("x", false) := by
  constructor
  · exact (bitrate_kbps_rule baseEnv kbpsState "" zeroRatingsItem "").2.2.2.2.1 rfl
  · exact (bitrate_kbps_rule baseEnv baseState "x" zeroRatingsItem "").2.1 (by decide)

/-- Claim C9: GetInt resolves exactly one code: LISTITEM_PERCENT_PLAYED on a
file item with metadata returns the percent played with found=true; every
other code, and every item without metadata, returns found=false with the
output untouched. -/
theorem getInt_only_percent_played (value0 : ℤ) (gitem : CGUIListItem)
    (info : CGUIInfo) :
    (∀ item tag, gitem = CGUIListItem.fileItem item →
        item.videoInfoTag = some tag →
        info.m_info = InfoCode.LISTITEM_PERCENT_PLAYED →
        GetInt value0 gitem info = (GetPercentPlayed tag, true))
      ∧ (info.m_info ≠ InfoCode.LISTITEM_PERCENT_PLAYED →
          GetInt value0 gitem info = (value0, false))
      ∧ (∀ item, gitem = CGUIListItem.fileItem item → item.videoInfoTag = none →
          GetInt value0 gitem info = (value0, false))
      ∧ (gitem = CGUIListItem.nonFileItem →
          GetInt value0 gitem info = (value0, false)) := by
  obtain ⟨c, d3⟩ := info
  refine ⟨?_, ?_, ?_, ?_⟩
  · rintro item tag rfl htag hc
    simp only at hc
    subst hc
    simp [GetInt, htag]
  · intro hne
    simp only at hne
    cases gitem with
    | nonFileItem => rfl
    | fileItem item =>
      cases htag : item.videoInfoTag with
      | none => simp [GetInt, htag]
      | some tag => cases c <;> simp_all [GetInt]
  · rintro item rfl htag
    simp [GetInt, htag]
  · rintro rfl
    rfl

/-- Claim C9 witness: GetInt at LISTITEM_PERCENT_PLAYED on `halfwayItem`
resolves, and at another code it defers leaving the output at 7. -/
theorem getInt_only_percent_played_witness :
    GetInt 7 (CGUIListItem.fileItem halfwayItem)
        ⟨InfoCode.LISTITEM_PERCENT_PLAYED, ""⟩ = (GetPercentPlayed halfwayTag, true)
      ∧ GetInt 7 (CGUIListItem.fileItem halfwayItem) ⟨InfoCode.LISTITEM_TITLE, ""⟩
        = (7, false) := by
  constructor
  · exact (getInt_only_percent_played 7 (CGUIListItem.fileItem halfwayItem)
      ⟨InfoCode.LISTITEM_PERCENT_PLAYED, ""⟩).1 halfwayItem halfwayTag rfl rfl rfl
  · exact (getInt_only_percent_played 7 (CGUIListItem.fileItem halfwayItem)
      ⟨InfoCode.LISTITEM_TITLE, ""⟩).2.1 (by decide)

/-- Claim C10: on non-file list items GetInt and GetBool report found=false
for every code and leave the output unchanged; on a file item,
LISTITEM_IS_STEREOSCOPIC writes the output only when the resolved mode is
non-empty and not "mono" (writing true), and otherwise reports found=true with
the caller's pre-existing output value untouched. -/
theorem nonFileItem_and_stereoscopic_frame (value0i : ℤ) (value0b : Bool)
    (env : Env) (info : CGUIInfo) (item : CFileItem) :
    GetInt value0i CGUIListItem.nonFileItem info = (value0i, false)
      ∧ GetBool env value0b CGUIListItem.nonFileItem info = (value0b, false)
      ∧ (¬(¬(resolveListItemStereoMode env item).isEmpty
            ∧ resolveListItemStereoMode env item ≠ "mono") →
          GetBool env value0b (CGUIListItem.fileItem item)
            ⟨InfoCode.LISTITEM_IS_STEREOSCOPIC, info.data3⟩ = (value0b, true))
      ∧ ((¬(resolveListItemStereoMode env item).isEmpty
            ∧ resolveListItemStereoMode env item ≠ "mono") →
          GetBool env value0b (CGUIListItem.fileItem item)
            ⟨InfoCode.LISTITEM_IS_STEREOSCOPIC, info.data3⟩ = (true, true)) := by
  refine ⟨rfl, rfl, ?_, ?_⟩
  · intro h
    cases hv : item.videoInfoTag <;>
      · simp only [GetBool, hv]
        rw [if_neg h]
  · intro h
    cases hv : item.videoInfoTag <;>
      · simp only [GetBool, hv]
        rw [if_pos h]

/-- Claim C10 witness: with the output variable pre-set to true and a resolved
"mono" mode, GetBool reports found without overwriting the output; a non-file
item leaves an output of 7 untouched. -/
theorem nonFileItem_and_stereoscopic_frame_witness :
    GetBool baseEnv true (CGUIListItem.fileItem monoPropItem)
        ⟨InfoCode.LISTITEM_IS_STEREOSCOPIC, ""⟩ = (true, true)
      ∧ GetInt 7 CGUIListItem.nonFileItem ⟨InfoCode.LISTITEM_PERCENT_PLAYED, ""⟩
        = (7, false) := by
  constructor
  · exact (nonFileItem_and_stereoscopic_frame 7 true baseEnv
      ⟨InfoCode.LISTITEM_IS_STEREOSCOPIC, ""⟩ monoPropItem).2.2.1 (by decide)
  · exact (nonFileItem_and_stereoscopic_frame 7 true baseEnv
      ⟨InfoCode.LISTITEM_PERCENT_PLAYED, ""⟩ monoPropItem).1

end VideoGUIInfo
